import Mathlib

/-!
Verification of `composio_google/toolset.py`, the Google Gemini adapter of the
Composio toolset.  The file shallowly embeds the adapter's data model and
operations: the Python value universe manipulated by the response walker
(`convert_map_composite`), the schema adapter (`_wrap_tool`), the dispatcher
(`execute_function_call`, `handle_response`) and the listing entry points
(`get_tool`, `get_actions`).  External collaborators (the base toolset's
`validate_tools`, `get_action_schemas`, `execute_action`, and the
`json_schema_to_model` schema-normalization utility) are passed in as function
parameters, since they live outside this module.
-/

namespace ComposioGoogle

/-- The universe of Python runtime values the adapter manipulates: scalars,
`None`, plain dicts, lists, tuples, and the vendor `MapComposite` nested-map
type from `proto.marshal.collections.maps`.  Dicts and map composites keep
their key/value pairs in insertion order. -/
inductive Value where
  | str : String → Value
  | int : Int → Value
  | bool : Bool → Value
  | pyNone : Value
  | dict : List (String × Value) → Value
  | list : List Value → Value
  | tuple : List Value → Value
  | mapComposite : List (String × Value) → Value

mutual

/-- The response walker `convert_map_composite` nested in
`execute_function_call` (toolset.py lines 212-218): a `MapComposite` becomes a
plain dict whose values are converted recursively, a list or tuple becomes a
list of converted items, and anything else is returned unchanged. -/
def convert_map_composite : Value → Value
  | .mapComposite kvs => .dict (convertKVs kvs)
  | .list xs => .list (convertItems xs)
  | .tuple xs => .list (convertItems xs)
  | v => v

/-- The dict comprehension of line 214: values converted, keys and order kept. -/
def convertKVs : List (String × Value) → List (String × Value)
  | [] => []
  | (k, v) :: rest => (k, convert_map_composite v) :: convertKVs rest

/-- The list comprehension of line 216: items converted, order kept. -/
def convertItems : List Value → List Value
  | [] => []
  | v :: rest => convert_map_composite v :: convertItems rest

end

theorem convertKVs_eq_map (kvs : List (String × Value)) :
    convertKVs kvs = kvs.map (fun kv => (kv.1, convert_map_composite kv.2)) := by
  induction kvs with
  | nil => rfl
  | cons kv rest ih => cases kv; simp [convertKVs, ih]

theorem convertItems_eq_map (xs : List Value) :
    convertItems xs = xs.map convert_map_composite := by
  induction xs with
  | nil => rfl
  | cons x rest ih => simp [convertItems, ih]

mutual

/-- The walker is idempotent on every value: a converted value contains no
`MapComposite` or tuple at any position the walker traverses, so a second pass
changes nothing. -/
theorem convert_idem : (v : Value) →
    convert_map_composite (convert_map_composite v) = convert_map_composite v
  | .str _ => rfl
  | .int _ => rfl
  | .bool _ => rfl
  | .pyNone => rfl
  | .dict _ => rfl
  | .mapComposite _ => rfl
  | .list xs => by
      simp only [convert_map_composite]
      rw [convertItems_idem xs]
  | .tuple xs => by
      simp only [convert_map_composite]
      rw [convertItems_idem xs]

theorem convertItems_idem : (xs : List Value) →
    convertItems (convertItems xs) = convertItems xs
  | [] => rfl
  | x :: rest => by
      simp only [convertItems]
      rw [convert_idem x, convertItems_idem rest]

end

mutual

/-- A value is plain when it contains no vendor `MapComposite` anywhere. -/
def isPlain : Value → Bool
  | .mapComposite _ => false
  | .dict kvs => isPlainKVs kvs
  | .list xs => isPlainItems xs
  | .tuple xs => isPlainItems xs
  | _ => true

def isPlainKVs : List (String × Value) → Bool
  | [] => true
  | (_, v) :: rest => isPlain v && isPlainKVs rest

def isPlainItems : List Value → Bool
  | [] => true
  | v :: rest => isPlain v && isPlainItems rest

end

/-- Values in the walker's catch-all branch: neither a `MapComposite` nor a
list nor a tuple (scalars, strings, `None`, plain dicts). -/
def isOther : Value → Bool
  | .mapComposite _ => false
  | .list _ => false
  | .tuple _ => false
  | _ => true

/-- A vendor nested map of the given depth: `depth`-fold `MapComposite`
nesting around a string leaf. -/
def deepNest : Nat → Value
  | 0 => .str "leaf"
  | n + 1 => .mapComposite [("k", deepNest n)]

/-- The plain-dict image of `deepNest`. -/
def deepPlain : Nat → Value
  | 0 => .str "leaf"
  | n + 1 => .dict [("k", deepPlain n)]

/-- The walker fully converts a nested vendor map of any depth: there is no
depth cap and no error case in its codomain. -/
theorem convert_deepNest (n : Nat) :
    convert_map_composite (deepNest n) = deepPlain n := by
  induction n with
  | zero => rfl
  | succ n ih => simp [deepNest, deepPlain, convert_map_composite, convertKVs, ih]

/-! ## Schema adapter (`_wrap_tool`, toolset.py lines 67-95) -/

/-- A tool schema dict as consumed by `_wrap_tool`: `name` is always present,
`description` is an optional key (`none` models an absent key, `some ""` a
present but empty value), `parameters` is the raw JSON-Schema value. -/
structure ToolSchema where
  name : String
  description : Option String
  parameters : Value

/-- The result of `json_schema_to_model(schema["parameters"]).schema()` as read
by `_wrap_tool`: an optional `properties` mapping (property name to that
property's schema, itself a key/value list) and an optional `required` list.
`none` models an absent key, matching the `.get` defaults of lines 78 and 88. -/
structure NormalizedSchema where
  properties : Option (List (String × List (String × Value)))
  required : Option (List String)

/-- The `cleaned_parameters` dict of lines 85-89. -/
structure CleanedParameters where
  type : String
  properties : List (String × List (String × Value))
  required : List String

/-- The vendor `FunctionDeclaration` as built by line 91-95. -/
structure FunctionDeclaration where
  name : String
  description : String
  parameters : CleanedParameters

/-- The property clean-up loop of lines 79-82: each property keeps every
key/value pair except those keyed `"examples"`. -/
def cleanProperties (properties : List (String × List (String × Value))) :
    List (String × List (String × Value)) :=
  properties.map (fun p => (p.1, p.2.filter (fun kv => kv.1 ≠ "examples")))

/-- `_wrap_tool` (lines 67-95).  `json_schema_to_model` stands for the external
normalization utility composed with `.schema()`; the `entity_id` parameter is
accepted but unused, as in the source. -/
def wrap_tool (json_schema_to_model : Value → NormalizedSchema)
    (schema : ToolSchema) (entity_id : String) : FunctionDeclaration :=
  let action := schema.name
  let description := schema.description.getD schema.name
  let parameters := json_schema_to_model schema.parameters
  let cleaned_properties := cleanProperties (parameters.properties.getD [])
  { name := action
    description := description
    parameters :=
      { type := "object"
        properties := cleaned_properties
        required := parameters.required.getD [] } }

/-! ## Dispatcher (`execute_function_call`, `handle_response`) -/

/-- Errors surfaced by the external collaborators; this module never catches
them, it only propagates. -/
inductive ToolsetError where
  | filterValidation : String → ToolsetError
  | actionExecution : String → ToolsetError
deriving DecidableEq

/-- The external `execute_action(action, params, entity_id)` boundary. -/
abbrev ExecuteAction := String → Value → String → Except ToolsetError Value

/-- Python's `entity_id or self.entity_id`: the default is taken when the
argument is `None` or the falsy empty string. -/
def resolve_entity (entity_id : Option String) (self_entity_id : String) : String :=
  match entity_id with
  | some s => if s = "" then self_entity_id else s
  | none => self_entity_id

/-- A function-call request from the model: `args` is `none` when the args
field is `None`/absent. -/
structure FunctionCall where
  name : String
  args : Option Value

/-- `execute_function_call` (the second, effective definition, lines 199-226):
when `args` is present it is normalized through the response walker, otherwise
the empty mapping is substituted without invoking the walker; the result of
`execute_action` is returned unchanged. -/
def execute_function_call (execute_action : ExecuteAction)
    (function_call : FunctionCall) (entity_id : Option String)
    (self_entity_id : String) : Except ToolsetError Value :=
  let args := match function_call.args with
    | some a => convert_map_composite a
    | none => .dict []
  execute_action function_call.name args (resolve_entity entity_id self_entity_id)

/-- A response part.  Every part in the embedding is a `Part`, so the
`isinstance(part, Part)` test of line 190 always holds; `function_call` is
`none` when the part carries no (non-empty) function call, mirroring the
`part.function_call` truthiness test. -/
structure Part where
  function_call : Option FunctionCall

/-- A response candidate; `content_parts` is `none` when `candidate.content`
lacks a `parts` attribute (the `hasattr` test of line 188). -/
structure Candidate where
  content_parts : Option (List Part)

/-- A model generation response: an ordered list of candidates. -/
structure GenerationResponse where
  candidates : List Candidate

/-- The inner part loop of `handle_response` (lines 189-196), with the
surrounding try-free exception semantics made explicit: a failing call aborts
the rest and no partial list is returned. -/
def handle_response_parts (execute_action : ExecuteAction) (parts : List Part)
    (entity_id : Option String) (self_entity_id : String) :
    Except ToolsetError (List Value) :=
  match parts with
  | [] => .ok []
  | part :: rest =>
    match part.function_call with
    | some fc =>
      match execute_function_call execute_action fc entity_id self_entity_id with
      | .ok r =>
        match handle_response_parts execute_action rest entity_id self_entity_id with
        | .ok rs => .ok (r :: rs)
        | .error e => .error e
      | .error e => .error e
    | none => handle_response_parts execute_action rest entity_id self_entity_id

/-- The outer candidate loop of `handle_response` (lines 187-197). -/
def handle_response_candidates (execute_action : ExecuteAction)
    (candidates : List Candidate) (entity_id : Option String)
    (self_entity_id : String) : Except ToolsetError (List Value) :=
  match candidates with
  | [] => .ok []
  | c :: rest =>
    match c.content_parts with
    | some parts =>
      match handle_response_parts execute_action parts entity_id self_entity_id with
      | .ok rs =>
        match handle_response_candidates execute_action rest entity_id self_entity_id with
        | .ok rs2 => .ok (rs ++ rs2)
        | .error e => .error e
      | .error e => .error e
    | none => handle_response_candidates execute_action rest entity_id self_entity_id

/-- `handle_response` (lines 174-197): line 194 resolves
`entity_id or self.entity_id` before the nested call, which resolves again. -/
def handle_response (execute_action : ExecuteAction)
    (response : GenerationResponse) (entity_id : Option String)
    (self_entity_id : String) : Except ToolsetError (List Value) :=
  handle_response_candidates execute_action response.candidates
    (some (resolve_entity entity_id self_entity_id)) self_entity_id

/-- The function calls contained in one candidate, in part order; empty when
the candidate's content lacks a `parts` attribute. -/
def candidateFunctionCalls (c : Candidate) : List FunctionCall :=
  match c.content_parts with
  | some parts => parts.filterMap (fun p => p.function_call)
  | none => []

/-- All function calls of a response in (candidate order, part order). -/
def responseFunctionCalls (response : GenerationResponse) : List FunctionCall :=
  response.candidates.foldr (fun c acc => candidateFunctionCalls c ++ acc) []

/-! ## Listing entry points (`get_tool`, `get_actions`) -/

/-- The tool group built by `get_tool` (line 131). -/
structure Tool where
  function_declarations : List FunctionDeclaration

/-- The external `validate_tools(apps, actions, tags)` boundary. -/
abbrev ValidateTools :=
  Option (List String) → Option (List String) → Option (List String) →
    Except ToolsetError Unit

/-- The external `get_action_schemas(actions, apps, tags)` boundary. -/
abbrev GetActionSchemas :=
  Option (List String) → Option (List String) → Option (List String) →
    List ToolSchema

/-- `get_tool` (lines 113-143): validate first (propagating any failure), then
wrap every schema in order, resolving `entity_id or self.entity_id` per tool. -/
def get_tool (validate_tools : ValidateTools)
    (get_action_schemas : GetActionSchemas)
    (json_schema_to_model : Value → NormalizedSchema)
    (actions apps tags : Option (List String)) (entity_id : Option String)
    (self_entity_id : String) : Except ToolsetError Tool :=
  match validate_tools apps actions tags with
  | .error e => .error e
  | .ok _ =>
    .ok ⟨(get_action_schemas actions apps tags).map
      (fun tool => wrap_tool json_schema_to_model tool
        (resolve_entity entity_id self_entity_id))⟩

/-- `get_actions` (lines 97-111), the `te.deprecated` alias.  The boolean
component records that the deprecation signal is emitted at call time; the
other component is the forwarded `get_tool` result with `apps` and `tags`
left as `None`. -/
def get_actions (validate_tools : ValidateTools)
    (get_action_schemas : GetActionSchemas)
    (json_schema_to_model : Value → NormalizedSchema)
    (actions : List String) (entity_id : Option String)
    (self_entity_id : String) : Bool × Except ToolsetError Tool :=
  (true,
   get_tool validate_tools get_action_schemas json_schema_to_model
     (some actions) none none entity_id self_entity_id)

/-! ## Dispatcher correspondence lemmas -/

theorem handle_response_parts_eq (ea : ExecuteAction) (parts : List Part)
    (e : Option String) (d : String) :
    handle_response_parts ea parts e d =
      (parts.filterMap (fun p => p.function_call)).mapM
        (fun fc => execute_function_call ea fc e d) := by
  induction parts with
  | nil => rfl
  | cons p rest ih =>
    cases hfc : p.function_call with
    | none =>
      simp only [handle_response_parts, hfc, List.filterMap_cons]
      exact ih
    | some fc =>
      simp only [handle_response_parts, hfc, List.filterMap_cons]
      rw [List.mapM_cons (fun fc => execute_function_call ea fc e d)]
      cases hx : execute_function_call ea fc e d with
      | ok r =>
        rw [ih]
        cases hr : (rest.filterMap (fun p => p.function_call)).mapM
            (fun fc => execute_function_call ea fc e d) with
        | ok rs => simp [hx, hr, Bind.bind, Except.bind, Pure.pure, Except.pure]
        | error err => simp [hx, hr, Bind.bind, Except.bind]
      | error err => simp [hx, Bind.bind, Except.bind]

theorem handle_response_candidates_eq (ea : ExecuteAction)
    (candidates : List Candidate) (e : Option String) (d : String) :
    handle_response_candidates ea candidates e d =
      (candidates.foldr (fun c acc => candidateFunctionCalls c ++ acc) []).mapM
        (fun fc => execute_function_call ea fc e d) := by
  induction candidates with
  | nil => rfl
  | cons c rest ih =>
    cases hc : c.content_parts with
    | none =>
      simp only [handle_response_candidates, hc, List.foldr_cons,
        candidateFunctionCalls, List.nil_append]
      exact ih
    | some parts =>
      have hcf : candidateFunctionCalls c
          = parts.filterMap (fun p => p.function_call) := by
        simp [candidateFunctionCalls, hc]
      simp only [handle_response_candidates, hc, List.foldr_cons]
      rw [hcf, List.mapM_append (fun fc => execute_function_call ea fc e d),
        handle_response_parts_eq, ih]
      cases h1 : (parts.filterMap (fun p => p.function_call)).mapM
          (fun fc => execute_function_call ea fc e d) with
      | ok rs =>
        cases h2 : (rest.foldr (fun c acc => candidateFunctionCalls c ++ acc)
            []).mapM (fun fc => execute_function_call ea fc e d) with
        | ok rs2 => simp [h1, h2, Bind.bind, Except.bind, Pure.pure, Except.pure]
        | error err => simp [h1, h2, Bind.bind, Except.bind]
      | error err => simp [h1, Bind.bind, Except.bind]

/-- `handle_response` computes exactly the in-order `mapM` of
`execute_function_call` over the response's function calls. -/
theorem handle_response_eq_mapM (ea : ExecuteAction)
    (response : GenerationResponse) (e : Option String) (d : String) :
    handle_response ea response e d =
      (responseFunctionCalls response).mapM
        (fun fc => execute_function_call ea fc (some (resolve_entity e d)) d) := by
  unfold handle_response responseFunctionCalls
  exact handle_response_candidates_eq ea response.candidates _ d

/-! ## Claim theorems -/

/-- C2: for every acyclic input, the response walker converts a vendor
`MapComposite` to a plain mapping with keys and insertion order preserved and
values recursively normalized, converts a list or tuple to a sequence of
recursively normalized elements in order, and returns any other value
(scalar, string, `None`, plain mapping) unchanged. -/
theorem c2_convert_map_composite_cases (kvs : List (String × Value))
    (xs ys : List Value) (v : Value) (h : isOther v = true) :
    convert_map_composite (.mapComposite kvs)
        = .dict (kvs.map (fun kv => (kv.1, convert_map_composite kv.2)))
    ∧ convert_map_composite (.list xs) = .list (xs.map convert_map_composite)
    ∧ convert_map_composite (.tuple ys) = .list (ys.map convert_map_composite)
    ∧ convert_map_composite v = v := by
  refine ⟨?_, ?_, ?_, ?_⟩
  · simp [convert_map_composite, convertKVs_eq_map]
  · simp [convert_map_composite, convertItems_eq_map]
  · simp [convert_map_composite, convertItems_eq_map]
  · cases v <;> simp_all [isOther, convert_map_composite]

/-- Witness for C2 at the spec's example: the nested vendor map
`a ↦ (b ↦ [1,2,3])` normalizes to the identical plain tree, and a plain
string is returned unchanged. -/
theorem c2_convert_map_composite_cases_witness :
    isOther (Value.str "s") = true
    ∧ convert_map_composite
        (.mapComposite [("a", .mapComposite [("b", .list [.int 1, .int 2, .int 3])])])
      = .dict [("a", .dict [("b", .list [.int 1, .int 2, .int 3])])]
    ∧ convert_map_composite (.str "s") = .str "s" := by
  refine ⟨rfl, ?_, (c2_convert_map_composite_cases [] [] [] (.str "s") rfl).2.2.2⟩
  exact ((c2_convert_map_composite_cases
    [("a", Value.mapComposite [("b", Value.list [.int 1, .int 2, .int 3])])]
    [] [] (.str "s") rfl).1).trans rfl

/-- C4: a function-call request with absent (`None`) args behaves identically
to the same request with empty-mapping args: the empty mapping is what reaches
`execute_action`, and the walker is not invoked on null. -/
theorem c4_none_args_as_empty_mapping (ea : ExecuteAction) (n : String)
    (e : Option String) (d : String) :
    execute_function_call ea ⟨n, none⟩ e d
        = execute_function_call ea ⟨n, some (.dict [])⟩ e d
    ∧ execute_function_call ea ⟨n, none⟩ e d
        = ea n (.dict []) (resolve_entity e d) :=
  ⟨rfl, rfl⟩

/-- C6 counterexample: the walker fully converts a vendor map nested 5000
levels deep — far beyond Python's default 1000-frame recursion limit and any
alleged cap — returning the normalized value; its codomain has no error case,
so it never fails with a `MalformedResponseError`. -/
theorem c6_counterexample_no_depth_cap :
    convert_map_composite (deepNest 5000) = deepPlain 5000 :=
  convert_deepNest 5000

/-- C6 amended: the response walker has no recursion-depth cap and no
`MalformedResponseError` outcome; it totally converts nested vendor maps of
every finite depth into the corresponding plain tree. -/
theorem c6_amended_walker_total (n : Nat) :
    convert_map_composite (deepNest n) = deepPlain n :=
  convert_deepNest n

/-- C8: the response walker is idempotent on already-plain data (trees that
contain no vendor map type). -/
theorem c8_convert_idempotent_on_plain (x : Value) (h : isPlain x = true) :
    convert_map_composite (convert_map_composite x) = convert_map_composite x :=
  convert_idem x

/-- Witness for C8 at a concrete plain tree. -/
theorem c8_convert_idempotent_on_plain_witness :
    isPlain (Value.dict [("a", Value.list [Value.int 1])]) = true
    ∧ convert_map_composite (convert_map_composite
        (Value.dict [("a", Value.list [Value.int 1])]))
      = convert_map_composite (Value.dict [("a", Value.list [Value.int 1])]) :=
  ⟨rfl, c8_convert_idempotent_on_plain (Value.dict [("a", Value.list [Value.int 1])]) rfl⟩

/-- C10: a plain dict is returned unchanged by the walker, without recursing
into its values; in particular a `MapComposite` nested as a value inside a
plain dict stays unconverted. -/
theorem c10_plain_dict_not_traversed (kvs kvs2 : List (String × Value)) :
    convert_map_composite (.dict kvs) = .dict kvs
    ∧ convert_map_composite (.dict [("inner", .mapComposite kvs2)])
        = .dict [("inner", .mapComposite kvs2)] :=
  ⟨rfl, rfl⟩

/-- C1: `_wrap_tool` strips every `examples` key from every property (passing
all other key/value pairs of each property through verbatim, preserving
property names and count) and always emits a `required` list, equal to the
normalized schema's `required` or empty when that is absent. -/
theorem c1_wrap_tool_cleaning (json_schema_to_model : Value → NormalizedSchema)
    (schema : ToolSchema) (entity_id : String) (i : Nat)
    (hi : i < ((json_schema_to_model schema.parameters).properties.getD []).length) :
    (wrap_tool json_schema_to_model schema entity_id).parameters.required
        = (json_schema_to_model schema.parameters).required.getD []
    ∧ (wrap_tool json_schema_to_model schema entity_id).parameters.properties.length
        = ((json_schema_to_model schema.parameters).properties.getD []).length
    ∧ ((wrap_tool json_schema_to_model schema entity_id).parameters.properties.getD
          i ("", [])).1
        = (((json_schema_to_model schema.parameters).properties.getD []).getD
          i ("", [])).1
    ∧ ∀ kv : String × Value,
        kv ∈ ((wrap_tool json_schema_to_model schema entity_id).parameters.properties.getD
            i ("", [])).2
          ↔ kv ∈ (((json_schema_to_model schema.parameters).properties.getD []).getD
              i ("", [])).2 ∧ kv.1 ≠ "examples" := by
  have hp : ((json_schema_to_model schema.parameters).properties.getD [])[i]?
      = some (((json_schema_to_model schema.parameters).properties.getD []).getD
          i ("", [])) := by
    rw [List.getD_eq_getElem?_getD, List.getElem?_eq_getElem hi]
    rfl
  refine ⟨rfl, by simp [wrap_tool, cleanProperties], ?_, ?_⟩
  · show ((cleanProperties
        ((json_schema_to_model schema.parameters).properties.getD [])).getD
          i ("", [])).1 = _
    rw [cleanProperties, List.getD_eq_getElem?_getD, List.getElem?_map, hp]
    rfl
  · intro kv
    show kv ∈ ((cleanProperties
        ((json_schema_to_model schema.parameters).properties.getD [])).getD
          i ("", [])).2 ↔ _
    rw [cleanProperties, List.getD_eq_getElem?_getD, List.getElem?_map, hp]
    simp [List.mem_filter]

/-- A concrete normalized schema in which every property carries an
`examples` key, used by the C1 witness. -/
def nrmWithExamples : Value → NormalizedSchema := fun _ =>
  { properties := some
      [("p1", [("type", .str "string"), ("examples", .list [.str "x"])]),
       ("p2", [("examples", .int 3), ("enum", .list [.int 1, .int 2])])]
    required := none }

/-- A concrete tool schema used by the C1 witness. -/
def schemaC1 : ToolSchema :=
  { name := "ACT", description := some "does things", parameters := .pyNone }

/-- Witness for C1: with every source property carrying `examples`, the
wrapped declaration's property 1 has its `examples` entry removed, keeps its
`enum` entry, and `required` is the empty list since the schema omits it. -/
theorem c1_wrap_tool_cleaning_witness :
    (wrap_tool nrmWithExamples schemaC1 "e").parameters.required = []
    ∧ ("examples", Value.int 3)
        ∉ ((wrap_tool nrmWithExamples schemaC1 "e").parameters.properties.getD
            1 ("", [])).2
    ∧ ("enum", Value.list [Value.int 1, Value.int 2])
        ∈ ((wrap_tool nrmWithExamples schemaC1 "e").parameters.properties.getD
            1 ("", [])).2 := by
  have h := c1_wrap_tool_cleaning nrmWithExamples schemaC1 "e" 1
    (by simp [nrmWithExamples, schemaC1])
  refine ⟨h.1.trans rfl, ?_, ?_⟩
  · intro hmem
    exact ((h.2.2.2 ("examples", Value.int 3)).mp hmem).2 rfl
  · refine (h.2.2.2 ("enum", Value.list [Value.int 1, Value.int 2])).mpr ⟨?_, ?_⟩
    · simp [nrmWithExamples, schemaC1]
    · simp

/-- The normalization used by the C7 fixtures: no properties, no required. -/
def nrmEmptySchema : Value → NormalizedSchema := fun _ =>
  { properties := none, required := none }

/-- A schema whose description key is present but empty (falsy in Python). -/
def schemaEmptyDescription : ToolSchema :=
  { name := "CREATE_ISSUE", description := some "", parameters := .pyNone }

/-- C7 counterexample: for a schema whose description is present but empty
(falsy), `_wrap_tool` keeps the empty string instead of substituting the name,
because `dict.get` only falls back on an absent key. -/
theorem c7_counterexample_empty_description :
    schemaEmptyDescription.description = some ""
    ∧ (wrap_tool nrmEmptySchema schemaEmptyDescription "e").description = ""
    ∧ (wrap_tool nrmEmptySchema schemaEmptyDescription "e").description
        ≠ schemaEmptyDescription.name :=
  ⟨rfl, rfl, by decide⟩

/-- C7 amended: the declaration's description equals the schema's description
whenever the description key is present — even when falsy, e.g. empty — and
equals the schema's name exactly when the key is absent. -/
theorem c7_amended_description (json_schema_to_model : Value → NormalizedSchema)
    (schema : ToolSchema) (entity_id : String) (s : String) :
    (schema.description = some s →
      (wrap_tool json_schema_to_model schema entity_id).description = s)
    ∧ (schema.description = none →
      (wrap_tool json_schema_to_model schema entity_id).description
        = schema.name) := by
  constructor <;> intro h <;> simp [wrap_tool, h]

/-- Witness for C7 amended: the present-but-empty description is kept. -/
theorem c7_amended_description_witness :
    (wrap_tool nrmEmptySchema schemaEmptyDescription "e").description = "" :=
  (c7_amended_description nrmEmptySchema schemaEmptyDescription "e" "").1 rfl

/-- C3: `handle_response` returns exactly the in-order sequence of
`execute_function_call` results over the response's function-call parts
(candidate order, then part order), silently skipping parts without a call and
candidates whose content lacks a parts attribute; a response with zero
function-call parts yields the empty sequence. -/
theorem c3_handle_response_dispatch (ea : ExecuteAction)
    (response : GenerationResponse) (e : Option String) (d : String) :
    handle_response ea response e d
      = (responseFunctionCalls response).mapM
          (fun fc => execute_function_call ea fc (some (resolve_entity e d)) d)
    ∧ (responseFunctionCalls response = [] →
        handle_response ea response e d = .ok []) := by
  refine ⟨handle_response_eq_mapM ea response e d, fun h0 => ?_⟩
  rw [handle_response_eq_mapM, h0]
  rfl

/-- An execution stub that always succeeds, for the C3 witness. -/
def execAlwaysOk : ExecuteAction := fun _ _ _ => .ok .pyNone

/-- A response with one partless candidate and one candidate whose single part
carries no function call: zero function-call parts in total. -/
def respNoCalls : GenerationResponse :=
  ⟨[⟨none⟩, ⟨some [⟨none⟩]⟩]⟩

/-- Witness for C3: a response without function-call parts yields `[]`. -/
theorem c3_handle_response_dispatch_witness :
    responseFunctionCalls respNoCalls = []
    ∧ handle_response execAlwaysOk respNoCalls none "default" = .ok [] :=
  ⟨rfl, (c3_handle_response_dispatch execAlwaysOk respNoCalls none "default").2 rfl⟩

/-- C5: invocations are sequential, and a failure of the k-th function call
aborts calls k+1..n; the error propagates and no partial result list is
returned. -/
theorem c5_failure_aborts_rest (ea : ExecuteAction)
    (response : GenerationResponse) (e : Option String) (d : String)
    (pre post : List FunctionCall) (fc : FunctionCall) (rs : List Value)
    (err : ToolsetError)
    (h1 : responseFunctionCalls response = pre ++ fc :: post)
    (h2 : pre.mapM
        (fun c => execute_function_call ea c (some (resolve_entity e d)) d)
      = .ok rs)
    (h3 : execute_function_call ea fc (some (resolve_entity e d)) d
      = .error err) :
    handle_response ea response e d = .error err := by
  rw [handle_response_eq_mapM, h1,
    List.mapM_append (fun c => execute_function_call ea c (some (resolve_entity e d)) d),
    h2,
    List.mapM_cons (fun c => execute_function_call ea c (some (resolve_entity e d)) d)]
  simp [h3, Bind.bind, Except.bind]

/-- An execution stub failing exactly on action `"b"`, for the C5 witness. -/
def execFailsOnB : ExecuteAction := fun n _ _ =>
  if n = "b" then .error (.actionExecution "boom") else .ok (.str n)

/-- A response whose single candidate carries three function-call parts
`a`, `b`, `c` in order. -/
def respThreeCalls : GenerationResponse :=
  ⟨[⟨some [⟨some ⟨"a", none⟩⟩, ⟨some ⟨"b", none⟩⟩, ⟨some ⟨"c", none⟩⟩]⟩]⟩

/-- Witness for C5: with the second of three calls failing, the whole
dispatch returns that error and no partial results. -/
theorem c5_failure_aborts_rest_witness :
    handle_response execFailsOnB respThreeCalls none "d"
      = .error (.actionExecution "boom") :=
  c5_failure_aborts_rest execFailsOnB respThreeCalls none "d"
    [⟨"a", none⟩] [⟨"c", none⟩] ⟨"b", none⟩ [.str "a"]
    (.actionExecution "boom") rfl rfl rfl

/-- C9: the deprecated `get_actions(actions, entity_id)` alias returns exactly
the result of `get_tool(actions=actions, entity_id=entity_id)` while emitting
a deprecation signal at call time. -/
theorem c9_get_actions_forwards (validate_tools : ValidateTools)
    (get_action_schemas : GetActionSchemas)
    (json_schema_to_model : Value → NormalizedSchema) (actions : List String)
    (entity_id : Option String) (self_entity_id : String) :
    (get_actions validate_tools get_action_schemas json_schema_to_model
        actions entity_id self_entity_id).2
      = get_tool validate_tools get_action_schemas json_schema_to_model
          (some actions) none none entity_id self_entity_id
    ∧ (get_actions validate_tools get_action_schemas json_schema_to_model
        actions entity_id self_entity_id).1 = true :=
  ⟨rfl, rfl⟩

end ComposioGoogle
